import Mathlib

/-!
Shallow embedding of the singing-flower simulation core.

Each definition mirrors one function of the TypeScript source:
StateMachine.ts (growth state machine), GrowthController.ts (parameter
mapping), AudioAnalyzer.ts (autocorrelation pitch estimate),
RoseCurve.ts (polar curve geometry) and ParticleSystem.ts (two-phase
particle simulation).  JavaScript numbers are modelled as rationals
where the source only uses field operations, and as reals where the
source uses sqrt, cos, sin or pi.
-/

namespace SingingFlower

/-- Growth states of the flower, from the GrowthState enum in types.ts. -/
inductive GrowthState
  | seed
  | sprout
  | stem
  | bloom
  | scatter
  deriving DecidableEq, Repr

namespace StateMachine

/-- Threshold SEED_TO_SPROUT_VOLUME from StateMachine.ts. -/
def SEED_TO_SPROUT_VOLUME : ℚ := 30

/-- Threshold BLOOM_TO_SCATTER_VOLUME from StateMachine.ts. -/
def BLOOM_TO_SCATTER_VOLUME : ℚ := 70

/-- Threshold SPROUT_TO_STEM_LENGTH from StateMachine.ts. -/
def SPROUT_TO_STEM_LENGTH : ℚ := 100

/-- Threshold STEM_TO_BLOOM_LENGTH from StateMachine.ts. -/
def STEM_TO_BLOOM_LENGTH : ℚ := 300

/-- StateMachine.update: one transition check for the current state. -/
def update (volume growthProgress : ℚ) (s : GrowthState) : GrowthState :=
  match s with
  | .seed => if SEED_TO_SPROUT_VOLUME ≤ volume then .sprout else .seed
  | .sprout => if SPROUT_TO_STEM_LENGTH ≤ growthProgress then .stem else .sprout
  | .stem => if STEM_TO_BLOOM_LENGTH ≤ growthProgress then .bloom else .stem
  | .bloom => if BLOOM_TO_SCATTER_VOLUME ≤ volume then .scatter else .bloom
  | .scatter => .scatter

/-- StateMachine.reset: unconditionally back to SEED. -/
def reset (_s : GrowthState) : GrowthState := .seed

/-- Position of a state along the one-directional growth order. -/
def stateIndex : GrowthState → ℕ
  | .seed => 0
  | .sprout => 1
  | .stem => 2
  | .bloom => 3
  | .scatter => 4

end StateMachine

namespace GrowthController

/-- GrowthParameters record from types.ts. -/
structure GrowthParameters where
  growthSpeed : ℚ
  swayAmount : ℚ
  colorHue : ℚ
  colorSaturation : ℚ
  colorLightness : ℚ
  deriving DecidableEq, Repr

/-- Default basePitch of GrowthController (300 Hz). -/
def defaultBasePitch : ℚ := 300

/-- GrowthController.calculateGrowthSpeed. -/
def calculateGrowthSpeed (volume : ℚ) : ℚ :=
  let normalizedVolume := volume / 100
  let easedVolume := normalizedVolume * normalizedVolume * (3 - 2 * normalizedVolume)
  1 + easedVolume * 2

/-- GrowthController.calculateSwayAmount. -/
def calculateSwayAmount (basePitch pitch : ℚ) : ℚ :=
  (pitch - basePitch) / 100

/-- GrowthController.calculateColorHue. -/
def calculateColorHue (pitch : ℚ) : ℚ :=
  if pitch ≤ 200 then 120
  else if 400 ≤ pitch then 180
  else 120 + ((pitch - 200) / 200) * 60

/-- GrowthController.calculateColorSaturation. -/
def calculateColorSaturation (pitch : ℚ) : ℚ :=
  if pitch ≤ 200 then 50
  else if 400 ≤ pitch then 80
  else 50 + ((pitch - 200) / 200) * 30

/-- GrowthController.calculateColorLightness. -/
def calculateColorLightness (pitch : ℚ) : ℚ :=
  max 30 (min 70 (30 + pitch / 10))

/-- GrowthController.update: assembles the parameter record. -/
def update (basePitch volume pitch : ℚ) : GrowthParameters :=
  { growthSpeed := calculateGrowthSpeed volume
    swayAmount := calculateSwayAmount basePitch pitch
    colorHue := calculateColorHue pitch
    colorSaturation := calculateColorSaturation pitch
    colorLightness := calculateColorLightness pitch }

end GrowthController

namespace AudioAnalyzer

/-- Byte samples normalized to the range -1..1, as in autoCorrelate. -/
def normalize (buffer : List ℕ) : List ℚ :=
  buffer.map fun b => ((b : ℚ) - 128) / 128

/-- Autocorrelation value at one lag: sum of products of the signal with
its copy delayed by the lag, as computed inside autoCorrelate. -/
def correlationAt (normalized : List ℚ) (lag : ℕ) : ℚ :=
  ((List.range (normalized.length - lag)).map fun i =>
    normalized.getD i 0 * normalized.getD (i + lag) 0).sum

/-- The peak-search loop of autoCorrelate: fold over the candidate lags,
keeping the lag with the strictly largest correlation seen so far.
The accumulator is (maxCorrelation, bestLag, foundPeak). -/
def findBestLag (correlations : ℕ → ℚ) (lags : List ℕ) : ℚ × ℕ × Bool :=
  lags.foldl
    (fun acc lag =>
      if acc.1 < correlations lag then (correlations lag, lag, true) else acc)
    (0, 0, false)

/-- AudioAnalyzer.autoCorrelate: silence check on the SUM of absolute
normalized amplitudes, then search lags whose implied frequency lies in
80..1000 Hz for the maximal correlation. -/
def autoCorrelate (buffer : List ℕ) (sampleRate : ℚ) : ℚ :=
  let normalized := normalize buffer
  let sumAbs := (normalized.map fun x => |x|).sum
  if sumAbs < 1 / 100 then 0
  else
    let minLag := (Int.floor (sampleRate / 1000)).toNat
    let maxLag := (Int.floor (sampleRate / 80)).toNat
    let lags := List.range' minLag (min maxLag normalized.length - minLag)
    let best := findBestLag (correlationAt normalized) lags
    if best.2.2 = false ∨ best.2.1 = 0 then 0
    else sampleRate / (best.2.1 : ℚ)

/-- Mean absolute normalized amplitude of a buffer.  This definition
follows the words of the specification (which states the silence check
on the mean), for comparison with the source, which sums. -/
def specMeanAbs (buffer : List ℕ) : ℚ :=
  ((normalize buffer).map fun x => |x|).sum / (buffer.length : ℚ)

end AudioAnalyzer

namespace RoseCurve

open Classical

/-- A JavaScript number as produced by the curve sampling: a finite
real, a signed infinity, or NaN.  calculateCurve divides maxTheta by
the segment count, so with 0 segments the step is Infinity and the
sampled angle 0 times Infinity is NaN; the operations the source
applies are modelled with their JavaScript semantics. -/
inductive JSNum
  | num : ℝ → JSNum
  | posInf : JSNum
  | negInf : JSNum
  | nan : JSNum

/-- JavaScript division of finite reals (the source divides maxTheta by
segments): division by zero gives a signed infinity, 0 / 0 gives NaN. -/
noncomputable def jsDiv (x y : ℝ) : JSNum :=
  if y = 0 then
    if x = 0 then .nan else if 0 < x then .posInf else .negInf
  else .num (x / y)

/-- JavaScript multiplication: NaN propagates, 0 times an infinity is
NaN, otherwise infinities keep the sign of the product. -/
noncomputable def jsMul : JSNum → JSNum → JSNum
  | .num a, .num b => .num (a * b)
  | .num a, .posInf => if a = 0 then .nan else if 0 < a then .posInf else .negInf
  | .num a, .negInf => if a = 0 then .nan else if 0 < a then .negInf else .posInf
  | .posInf, .num b => if b = 0 then .nan else if 0 < b then .posInf else .negInf
  | .negInf, .num b => if b = 0 then .nan else if 0 < b then .negInf else .posInf
  | .posInf, .posInf => .posInf
  | .posInf, .negInf => .negInf
  | .negInf, .posInf => .negInf
  | .negInf, .negInf => .posInf
  | _, _ => .nan

/-- JavaScript addition (used to rotate theta by pi): NaN propagates
and opposite infinities give NaN. -/
noncomputable def jsAdd : JSNum → JSNum → JSNum
  | .num a, .num b => .num (a + b)
  | .num _, .posInf => .posInf
  | .posInf, .num _ => .posInf
  | .num _, .negInf => .negInf
  | .negInf, .num _ => .negInf
  | .posInf, .posInf => .posInf
  | .negInf, .negInf => .negInf
  | _, _ => .nan

/-- JavaScript Math.cos: NaN on NaN and on the infinities. -/
noncomputable def jsCos : JSNum → JSNum
  | .num a => .num (Real.cos a)
  | _ => .nan

/-- JavaScript Math.abs. -/
noncomputable def jsAbs : JSNum → JSNum
  | .num a => .num |a|
  | .posInf => .posInf
  | .negInf => .posInf
  | .nan => .nan

/-- JavaScript strict comparison: NaN compares false to everything. -/
def jsLt : JSNum → JSNum → Prop
  | .num a, .num b => a < b
  | .num _, .posInf => True
  | .negInf, .num _ => True
  | .negInf, .posInf => True
  | _, _ => False

/-- JavaScript non-strict comparison: NaN compares false to
everything, an infinity is below or above every finite number. -/
def jsLe : JSNum → JSNum → Prop
  | .num a, .num b => a ≤ b
  | .num _, .posInf => True
  | .negInf, .num _ => True
  | .negInf, .posInf => True
  | .posInf, .posInf => True
  | .negInf, .negInf => True
  | _, _ => False

/-- A polar point as produced by RoseCurve.calculateCurve. -/
structure RosePoint where
  r : JSNum
  theta : JSNum

/-- RoseCurve.getMaxTheta: 2 pi when k is within 0.01 of an integer
(JavaScript Math.round is floor of x + 1/2, as is Mathlib round),
4 pi otherwise. -/
noncomputable def getMaxTheta (k : ℝ) : ℝ :=
  if |k - (round k : ℝ)| < 1 / 100 then 2 * Real.pi else 4 * Real.pi

/-- RoseCurve.calculateCurve: sample r = a cos (k theta) at segments + 1
evenly spaced angles; a negative radius is stored as its absolute value
with the angle rotated by pi.  The step maxTheta / segments is a
JavaScript division, so 0 segments makes the sampled values NaN. -/
noncomputable def calculateCurve (a k : ℝ) (segments : ℕ) : List RosePoint :=
  let maxTheta := getMaxTheta k
  let step := jsDiv maxTheta (segments : ℝ)
  (List.range (segments + 1)).map fun (i : ℕ) =>
    let theta := jsMul (.num (i : ℝ)) step
    let r := jsMul (.num a) (jsCos (jsMul (.num k) theta))
    if jsLt r (.num 0) then { r := jsAbs r, theta := jsAdd theta (.num Real.pi) }
    else { r := jsAbs r, theta := theta }

end RoseCurve

namespace ParticleSystem

open Classical

/-- A 2D point (Point interface in types.ts). -/
structure Point where
  x : ℝ
  y : ℝ

/-- A particle, with the fields of the Particle interface that
ParticleSystem.ts reads or writes. -/
structure Particle where
  x : ℝ
  y : ℝ
  vx : ℝ
  vy : ℝ
  color : String
  alpha : ℝ
  size : ℝ
  targetX : ℝ
  targetY : ℝ
  life : ℝ
  maxLife : ℝ
  birthTime : ℝ
  partType : String
  partIndex : Option ℕ

/-- An input flower point handed to generateParticles. -/
structure FlowerPoint where
  x : ℝ
  y : ℝ
  color : String

/-- The fields of the Leaf interface that generateParticles reads. -/
structure Leaf where
  x : ℝ
  y : ℝ
  angle : ℝ
  size : ℝ
  baseColor : String

/-- The two phases of the particle system. -/
inductive Phase
  | scatter
  | converge
  deriving DecidableEq, Repr

/-- The mutable state of a ParticleSystem instance. -/
structure PSystem where
  particles : List Particle
  phase : Phase
  seedPosition : Point

/-- Constant gravity of ParticleSystem.ts. -/
def gravity : ℝ := 0.5

/-- Constant alphaDecayRate of ParticleSystem.ts. -/
def alphaDecayRate : ℝ := 0.3

/-- Constant alphaThreshold of ParticleSystem.ts. -/
def alphaThreshold : ℝ := 0.3

/-- Constant convergenceSpeed of ParticleSystem.ts. -/
def convergenceSpeed : ℝ := 4.0

/-- Constant arrivalThreshold of ParticleSystem.ts. -/
def arrivalThreshold : ℝ := 5

/-- Fresh ParticleSystem instance, as built by the constructor. -/
def init (seedPosition : Point) : PSystem :=
  { particles := [], phase := .scatter, seedPosition := seedPosition }

/-- One particle as pushed by generateParticles.  The four Math.random()
draws of the source are passed in explicitly: r1 for the emission angle,
r2 for the speed variation, r3 for the size and r4 for maxLife. -/
noncomputable def mkScatterParticle (px py : ℝ) (color partType : String)
    (partIndex : Option ℕ) (baseSpeed verticalBias : ℝ) (seedPosition : Point)
    (currentTime : ℝ) (r1 r2 r3 r4 : ℝ) : Particle :=
  let angle := r1 * Real.pi * 2
  let speed := baseSpeed * (0.8 + r2 * 0.4)
  let vx := Real.cos angle * speed
  let vy := Real.sin angle * speed + verticalBias * speed * 0.5
  { x := px
    y := py
    vx := vx
    vy := vy
    color := color
    alpha := 1.0
    size := 2 + r3 * 2
    targetX := seedPosition.x
    targetY := seedPosition.y
    life := 1.0
    maxLife := 3 + r4 * 2
    birthTime := currentTime
    partType := partType
    partIndex := partIndex }

/-- Number of stem segments used by generateParticles (10, giving 11
stem particles). -/
def stemSegments : ℕ := 10

/-- The leaf loop of generateParticles: each leaf yields 5 particles
sampled along its direction. -/
noncomputable def leafParticles (seedPosition : Point)
    (baseSpeed verticalBias currentTime : ℝ) (rand : ℕ → ℝ) (randBase : ℕ) :
    ℕ → List Leaf → List Particle
  | _, [] => []
  | leafIndex, leaf :: rest =>
    ((List.range 5).map fun (i : ℕ) =>
      let t := (i : ℝ) / 4
      let x := leaf.x + Real.cos leaf.angle * leaf.size * t
      let y := leaf.y + Real.sin leaf.angle * leaf.size * t
      let base := randBase + 4 * (5 * leafIndex + i)
      mkScatterParticle x y leaf.baseColor "leaf" (some leafIndex)
        baseSpeed verticalBias seedPosition currentTime
        (rand base) (rand (base + 1)) (rand (base + 2)) (rand (base + 3)))
    ++ leafParticles seedPosition baseSpeed verticalBias currentTime rand randBase
        (leafIndex + 1) rest

/-- ParticleSystem.generateParticles: replaces the particle list with one
particle per flower point, stemSegments + 1 stem particles and 5
particles per leaf, and sets the phase back to scatter.  Math.random()
is modelled by the injected stream rand, consumed four values per
particle. -/
noncomputable def generateParticles (seedPosition : Point) (stemHeight : ℝ)
    (leaves : List Leaf) (flowerPoints : List FlowerPoint)
    (volume pitch currentTime : ℝ) (rand : ℕ → ℝ) : PSystem :=
  let baseSpeed := 1 + (volume / 100) * 4
  let normalizedPitch := max 0 (min 1 ((pitch - 200) / 600))
  let verticalBias := (normalizedPitch - 0.5) * 2
  let nF := flowerPoints.length
  let flower := flowerPoints.mapIdx fun i pt =>
    mkScatterParticle pt.x pt.y pt.color "flower" none
      baseSpeed verticalBias seedPosition currentTime
      (rand (4 * i)) (rand (4 * i + 1)) (rand (4 * i + 2)) (rand (4 * i + 3))
  let stem := (List.range (stemSegments + 1)).map fun (i : ℕ) =>
    let t := (i : ℝ) / (stemSegments : ℝ)
    let y := seedPosition.y - stemHeight * t
    let base := 4 * (nF + i)
    mkScatterParticle seedPosition.x y "rgb(70, 200, 160)" "stem" none
      baseSpeed verticalBias seedPosition currentTime
      (rand base) (rand (base + 1)) (rand (base + 2)) (rand (base + 3))
  let leafPart := leafParticles seedPosition baseSpeed verticalBias currentTime
    rand (4 * (nF + stemSegments + 1)) 0 leaves
  { particles := flower ++ stem ++ leafPart
    phase := .scatter
    seedPosition := seedPosition }

/-- One particle step of updateScatterPhase: gravity into vy, velocity
into position (with the fresh vy, as in the source), alpha and life
decayed and floored at 0. -/
noncomputable def updateScatterParticle (deltaTime : ℝ) (p : Particle) : Particle :=
  let vy := p.vy + gravity * deltaTime * 60
  let x := p.x + p.vx * deltaTime * 60
  let y := p.y + vy * deltaTime * 60
  let alpha := max 0 (p.alpha - alphaDecayRate * deltaTime)
  let life := max 0 (p.life - deltaTime / p.maxLife)
  { p with vy := vy, x := x, y := y, alpha := alpha, life := life }

/-- The phase-flip condition at the end of updateScatterPhase.  The
source computes the mean alpha as sum / length; on an empty particle
list this is the JavaScript expression 0 / 0 = NaN, and NaN < 0.3 is
false, so the flip can only fire on a nonempty list. -/
def avgAlphaBelow (particles : List Particle) : Prop :=
  particles ≠ [] ∧ (particles.map Particle.alpha).sum / (particles.length : ℝ) < alphaThreshold

/-- ParticleSystem.updateScatterPhase. -/
noncomputable def updateScatterPhase (deltaTime : ℝ) (s : PSystem) : PSystem :=
  let particles := s.particles.map (updateScatterParticle deltaTime)
  { s with
    particles := particles
    phase := if avgAlphaBelow particles then .converge else s.phase }

/-- Distance of a particle to its stored target. -/
noncomputable def distToTarget (p : Particle) : ℝ :=
  Real.sqrt ((p.targetX - p.x) * (p.targetX - p.x) + (p.targetY - p.y) * (p.targetY - p.y))

/-- One particle step of updateConvergePhase: if the distance to the
target exceeds the arrival threshold, move min (speed dt 60) distance
along the unit direction vector and record a display velocity; else
zero the velocity.  In both cases alpha recovers scaled by proximity,
capped at 1; the proximity uses the distance computed before the move,
as in the source. -/
noncomputable def updateConvergeParticle (deltaTime : ℝ) (p : Particle) : Particle :=
  let dx := p.targetX - p.x
  let dy := p.targetY - p.y
  let distance := Real.sqrt (dx * dx + dy * dy)
  let proximityRatio := max 0 (1 - distance / 200)
  let alpha := min 1 (p.alpha + 0.3 * deltaTime * proximityRatio)
  if arrivalThreshold < distance then
    let distanceRatio := min (distance / 300) 1
    let easing := 1 - (1 - distanceRatio) ^ 3
    let speedMultiplier := 1 + easing * 3
    let speed := convergenceSpeed * speedMultiplier
    let dirX := dx / distance
    let dirY := dy / distance
    let moveDistance := min (speed * deltaTime * 60) distance
    { p with
      x := p.x + dirX * moveDistance
      y := p.y + dirY * moveDistance
      vx := dirX * speed * 60
      vy := dirY * speed * 60
      alpha := alpha }
  else
    { p with vx := 0, vy := 0, alpha := alpha }

/-- ParticleSystem.updateConvergePhase. -/
noncomputable def updateConvergePhase (deltaTime : ℝ) (s : PSystem) : PSystem :=
  { s with particles := s.particles.map (updateConvergeParticle deltaTime) }

/-- ParticleSystem.update: dispatch on the current phase. -/
noncomputable def update (deltaTime _currentTime : ℝ) (s : PSystem) : PSystem :=
  if s.phase = .scatter then updateScatterPhase deltaTime s
  else updateConvergePhase deltaTime s

/-- The loop of allParticlesArrived: false as soon as one particle is
farther from its target than the arrival threshold. -/
noncomputable def allParticlesArrivedLoop : List Particle → Prop
  | [] => True
  | p :: rest =>
    if arrivalThreshold < distToTarget p then False else allParticlesArrivedLoop rest

/-- ParticleSystem.allParticlesArrived: false outside the converge
phase, else the loop over all particles. -/
noncomputable def allParticlesArrived (s : PSystem) : Prop :=
  if s.phase ≠ .converge then False else allParticlesArrivedLoop s.particles

/-- ParticleSystem.reset. -/
def reset (s : PSystem) : PSystem :=
  { s with particles := [], phase := .scatter }

end ParticleSystem

/-! ## Theorems -/

/-- C1: StateMachine.update moves Seed to Sprout exactly when volume is
at least 30, Sprout to Stem exactly when growthProgress is at least 100,
Stem to Bloom exactly when growthProgress is at least 300, Bloom to
Scatter exactly when volume is at least 70, never leaves Scatter, and a
single call never advances more than one step. -/
theorem c1_stateMachine_update_spec (volume growthProgress : ℚ) :
    (StateMachine.update volume growthProgress .seed = .sprout ↔ 30 ≤ volume)
    ∧ (StateMachine.update volume growthProgress .seed = .seed ↔ ¬ 30 ≤ volume)
    ∧ (StateMachine.update volume growthProgress .sprout = .stem ↔ 100 ≤ growthProgress)
    ∧ (StateMachine.update volume growthProgress .sprout = .sprout ↔ ¬ 100 ≤ growthProgress)
    ∧ (StateMachine.update volume growthProgress .stem = .bloom ↔ 300 ≤ growthProgress)
    ∧ (StateMachine.update volume growthProgress .stem = .stem ↔ ¬ 300 ≤ growthProgress)
    ∧ (StateMachine.update volume growthProgress .bloom = .scatter ↔ 70 ≤ volume)
    ∧ (StateMachine.update volume growthProgress .bloom = .bloom ↔ ¬ 70 ≤ volume)
    ∧ StateMachine.update volume growthProgress .scatter = .scatter
    ∧ ∀ s, StateMachine.stateIndex (StateMachine.update volume growthProgress s)
        ≤ StateMachine.stateIndex s + 1 := by
  have hcascade : ∀ s, StateMachine.stateIndex (StateMachine.update volume growthProgress s)
      ≤ StateMachine.stateIndex s + 1 := by
    intro s
    cases s <;> simp only [StateMachine.update] <;>
      try split_ifs
    all_goals simp [StateMachine.stateIndex]
  refine ⟨?_, ?_, ?_, ?_, ?_, ?_, ?_, ?_, rfl, hcascade⟩ <;>
    · simp only [StateMachine.update, StateMachine.SEED_TO_SPROUT_VOLUME,
        StateMachine.SPROUT_TO_STEM_LENGTH, StateMachine.STEM_TO_BLOOM_LENGTH,
        StateMachine.BLOOM_TO_SCATTER_VOLUME]
      split_ifs with h <;> simp [h]

/-- C2 counterexample: the claim says every output of update is clamped
into its stated range for every numeric input, but growthSpeed at
volume -100 is 11, outside the stated range 1..3. -/
theorem c2_growthSpeed_unclamped_counterexample :
    (GrowthController.update 300 (-100) 0).growthSpeed = 11
    ∧ ¬ (GrowthController.update 300 (-100) 0).growthSpeed ≤ 3 := by
  norm_num [GrowthController.update, GrowthController.calculateGrowthSpeed]

/-- C2 amended: the three pitch-derived colors are clamped into their
stated ranges for every pitch, and growthSpeed lies in 1..3 whenever
volume lies in 0..100 (for volume outside 0..100 growthSpeed is not
clamped); no input is rejected, every input yields a value. -/
theorem c2_growthController_ranges (basePitch volume pitch : ℚ)
    (h0 : 0 ≤ volume) (h1 : volume ≤ 100) :
    1 ≤ (GrowthController.update basePitch volume pitch).growthSpeed
    ∧ (GrowthController.update basePitch volume pitch).growthSpeed ≤ 3
    ∧ 120 ≤ (GrowthController.update basePitch volume pitch).colorHue
    ∧ (GrowthController.update basePitch volume pitch).colorHue ≤ 180
    ∧ 50 ≤ (GrowthController.update basePitch volume pitch).colorSaturation
    ∧ (GrowthController.update basePitch volume pitch).colorSaturation ≤ 80
    ∧ 30 ≤ (GrowthController.update basePitch volume pitch).colorLightness
    ∧ (GrowthController.update basePitch volume pitch).colorLightness ≤ 70 := by
  have hs0 : 0 ≤ volume / 100 := by positivity
  have hs1 : volume / 100 ≤ 1 := by linarith
  refine ⟨?_, ?_, ?_, ?_, ?_, ?_, ?_, ?_⟩ <;>
    simp only [GrowthController.update, GrowthController.calculateGrowthSpeed,
      GrowthController.calculateColorHue, GrowthController.calculateColorSaturation,
      GrowthController.calculateColorLightness]
  · nlinarith [sq_nonneg (volume / 100)]
  · nlinarith [sq_nonneg (1 - volume / 100), mul_nonneg hs0 hs0]
  · split_ifs with ha hb <;> nlinarith
  · split_ifs with ha hb <;> nlinarith
  · split_ifs with ha hb <;> nlinarith
  · split_ifs with ha hb <;> nlinarith
  · exact le_max_left 30 _
  · exact max_le (by norm_num) (min_le_left 70 _)

/-- C2 witness: the amended theorem applied at volume 50, pitch -5. -/
theorem c2_growthController_ranges_witness :
    (0 : ℚ) ≤ 50 ∧ (50 : ℚ) ≤ 100
    ∧ (1 ≤ (GrowthController.update 300 50 (-5)).growthSpeed
      ∧ (GrowthController.update 300 50 (-5)).growthSpeed ≤ 3
      ∧ 120 ≤ (GrowthController.update 300 50 (-5)).colorHue
      ∧ (GrowthController.update 300 50 (-5)).colorHue ≤ 180
      ∧ 50 ≤ (GrowthController.update 300 50 (-5)).colorSaturation
      ∧ (GrowthController.update 300 50 (-5)).colorSaturation ≤ 80
      ∧ 30 ≤ (GrowthController.update 300 50 (-5)).colorLightness
      ∧ (GrowthController.update 300 50 (-5)).colorLightness ≤ 70) :=
  ⟨by norm_num, by norm_num,
    c2_growthController_ranges 300 50 (-5) (by norm_num) (by norm_num)⟩

/-- C5: for volume in 0..100, growthSpeed equals
1 + 2 s s (3 - 2 s) with s = volume / 100, lies in 1..3, is monotone
non-decreasing, and takes the values 1, 2, 3 at volume 0, 50, 100. -/
theorem c5_growthSpeed_smoothstep (v w : ℚ) (h0 : 0 ≤ v) (h1 : v ≤ 100)
    (h2 : 0 ≤ w) (h3 : w ≤ 100) (hvw : v ≤ w) :
    GrowthController.calculateGrowthSpeed v
        = 1 + 2 * (v / 100) * (v / 100) * (3 - 2 * (v / 100))
    ∧ 1 ≤ GrowthController.calculateGrowthSpeed v
    ∧ GrowthController.calculateGrowthSpeed v ≤ 3
    ∧ GrowthController.calculateGrowthSpeed v ≤ GrowthController.calculateGrowthSpeed w
    ∧ GrowthController.calculateGrowthSpeed 0 = 1
    ∧ GrowthController.calculateGrowthSpeed 50 = 2
    ∧ GrowthController.calculateGrowthSpeed 100 = 3 := by
  have hs0 : 0 ≤ v / 100 := by positivity
  have hs1 : v / 100 ≤ 1 := by linarith
  have ht0 : 0 ≤ w / 100 := by positivity
  have ht1 : w / 100 ≤ 1 := by linarith
  have hst : v / 100 ≤ w / 100 := by linarith
  refine ⟨?_, ?_, ?_, ?_, ?_, ?_, ?_⟩ <;>
    simp only [GrowthController.calculateGrowthSpeed]
  · ring
  · nlinarith [sq_nonneg (v / 100)]
  · nlinarith [sq_nonneg (1 - v / 100), mul_nonneg hs0 hs0]
  · have hg : 0 ≤ 3 * (v / 100 + w / 100)
        - 2 * ((v / 100) * (v / 100) + (v / 100) * (w / 100) + (w / 100) * (w / 100)) := by
      nlinarith [mul_nonneg hs0 (by linarith : (0 : ℚ) ≤ 1 - v / 100),
        mul_nonneg ht0 (by linarith : (0 : ℚ) ≤ 1 - w / 100),
        mul_nonneg (by linarith : (0 : ℚ) ≤ v / 100 + w / 100)
          (by linarith : (0 : ℚ) ≤ 2 - v / 100 - w / 100)]
    nlinarith [mul_nonneg (sub_nonneg.2 hst) hg]
  · norm_num
  · norm_num
  · norm_num

/-- C5 witness: the theorem applied at volumes 10 and 60. -/
theorem c5_growthSpeed_smoothstep_witness :
    (0 : ℚ) ≤ 10 ∧ (10 : ℚ) ≤ 100 ∧ (0 : ℚ) ≤ 60 ∧ (60 : ℚ) ≤ 100 ∧ (10 : ℚ) ≤ 60
    ∧ (GrowthController.calculateGrowthSpeed 10
        = 1 + 2 * ((10 : ℚ) / 100) * ((10 : ℚ) / 100) * (3 - 2 * ((10 : ℚ) / 100))
      ∧ 1 ≤ GrowthController.calculateGrowthSpeed 10
      ∧ GrowthController.calculateGrowthSpeed 10 ≤ 3
      ∧ GrowthController.calculateGrowthSpeed 10 ≤ GrowthController.calculateGrowthSpeed 60
      ∧ GrowthController.calculateGrowthSpeed 0 = 1
      ∧ GrowthController.calculateGrowthSpeed 50 = 2
      ∧ GrowthController.calculateGrowthSpeed 100 = 3) :=
  ⟨by norm_num, by norm_num, by norm_num, by norm_num, by norm_num,
    c5_growthSpeed_smoothstep 10 60 (by norm_num) (by norm_num) (by norm_num)
      (by norm_num) (by norm_num)⟩

/-- The leaf loop of generateParticles yields 5 particles per leaf. -/
theorem leafParticles_length (seedPosition : ParticleSystem.Point)
    (baseSpeed verticalBias currentTime : ℝ) (rand : ℕ → ℝ) (randBase : ℕ) :
    ∀ (n : ℕ) (ls : List ParticleSystem.Leaf),
      (ParticleSystem.leafParticles seedPosition baseSpeed verticalBias currentTime
        rand randBase n ls).length = 5 * ls.length := by
  intro n ls
  induction ls generalizing n with
  | nil => simp [ParticleSystem.leafParticles]
  | cons leaf rest ih =>
    simp [ParticleSystem.leafParticles, ih]
    ring

/-- C3 counterexample: the claim says the particle count after
generateParticles equals the number of supplied flower points, but with
one flower point and no leaves the call also spawns 11 stem particles,
so 12 particles result, not 1. -/
theorem c3_generateParticles_count_counterexample :
    (ParticleSystem.generateParticles ⟨0, 0⟩ 0 [] [⟨0, 0, "red"⟩] 0 0 0
        fun _ => 0).particles.length = 12
    ∧ ([(⟨0, 0, "red"⟩ : ParticleSystem.FlowerPoint)]).length = 1
    ∧ (12 : ℕ) ≠ 1 := by
  refine ⟨?_, rfl, by norm_num⟩
  simp [ParticleSystem.generateParticles, ParticleSystem.leafParticles,
    ParticleSystem.stemSegments]

/-- C3 amended: generateParticles spawns one particle per flower point
plus 11 stem particles plus 5 particles per leaf, and the phase after
the call is always scatter. -/
theorem c3_generateParticles_count (seedPosition : ParticleSystem.Point)
    (stemHeight : ℝ) (leaves : List ParticleSystem.Leaf)
    (flowerPoints : List ParticleSystem.FlowerPoint)
    (volume pitch currentTime : ℝ) (rand : ℕ → ℝ) :
    (ParticleSystem.generateParticles seedPosition stemHeight leaves flowerPoints
        volume pitch currentTime rand).particles.length
      = flowerPoints.length + 11 + 5 * leaves.length
    ∧ (ParticleSystem.generateParticles seedPosition stemHeight leaves flowerPoints
        volume pitch currentTime rand).phase = ParticleSystem.Phase.scatter := by
  constructor
  · simp [ParticleSystem.generateParticles, ParticleSystem.stemSegments,
      leafParticles_length]
    ring
  · rfl

/-- C4 counterexample: the claim says the estimator returns 0 whenever
the mean absolute normalized amplitude is below 0.01, but the source
compares the SUM against 0.01; a buffer of four samples of value 129 at
sample rate 1000 has mean 1/128 below 0.01 yet yields pitch 1000. -/
theorem c4_autoCorrelate_mean_counterexample :
    AudioAnalyzer.specMeanAbs [129, 129, 129, 129] < 1 / 100
    ∧ AudioAnalyzer.autoCorrelate [129, 129, 129, 129] 1000 = 1000
    ∧ (1000 : ℚ) ≠ 0 := by
  refine ⟨?_, ?_, by norm_num⟩
  · norm_num [AudioAnalyzer.specMeanAbs, AudioAnalyzer.normalize, abs_of_nonneg]
  · norm_num [AudioAnalyzer.autoCorrelate, AudioAnalyzer.normalize,
      AudioAnalyzer.findBestLag, AudioAnalyzer.correlationAt, abs_of_nonneg,
      List.range', List.range_succ, List.getD]

/-- C4 amended: the estimator returns 0 immediately when the SUM of the
absolute normalized amplitudes is below the silence threshold 0.01. -/
theorem c4_autoCorrelate_silence (buffer : List ℕ) (sampleRate : ℚ)
    (h : ((AudioAnalyzer.normalize buffer).map fun x => |x|).sum < 1 / 100) :
    AudioAnalyzer.autoCorrelate buffer sampleRate = 0 := by
  unfold AudioAnalyzer.autoCorrelate
  exact if_pos h

/-- C4 witness: the amended theorem applied to a silent two-sample
buffer at sample rate 44100. -/
theorem c4_autoCorrelate_silence_witness :
    ((AudioAnalyzer.normalize [128, 128]).map fun x => |x|).sum < 1 / 100
    ∧ AudioAnalyzer.autoCorrelate [128, 128] 44100 = 0 :=
  ⟨by norm_num [AudioAnalyzer.normalize],
    c4_autoCorrelate_silence [128, 128] 44100 (by norm_num [AudioAnalyzer.normalize])⟩

/-- Both branches of getMaxTheta are nonnegative. -/
theorem getMaxTheta_nonneg (k : ℝ) : 0 ≤ RoseCurve.getMaxTheta k := by
  unfold RoseCurve.getMaxTheta
  split_ifs <;> positivity

/-- C9 counterexample: the claim quantifies over every number of
segments, but at segments = 0 the step is maxTheta / 0 = Infinity, the
only sampled angle is 0 times Infinity = NaN, and the single returned
point carries NaN radius and NaN angle, so r at least 0 fails (NaN
comparisons are false in JavaScript). -/
theorem c9_segments_zero_counterexample :
    RoseCurve.calculateCurve 1 3 0
      = [{ r := RoseCurve.JSNum.nan, theta := RoseCurve.JSNum.nan }]
    ∧ ¬ RoseCurve.jsLe (RoseCurve.JSNum.num 0) RoseCurve.JSNum.nan := by
  constructor
  · have hround : round (3 : ℝ) = 3 := by norm_num [round_eq]
    have hmax : RoseCurve.getMaxTheta 3 = 2 * Real.pi := by
      unfold RoseCurve.getMaxTheta
      rw [hround]
      rw [if_pos (by norm_num)]
    have hdiv : RoseCurve.jsDiv (2 * Real.pi) ((0 : ℕ) : ℝ) = RoseCurve.JSNum.posInf := by
      unfold RoseCurve.jsDiv
      have hpi : (0 : ℝ) < 2 * Real.pi := by positivity
      rw [if_pos (by norm_num), if_neg hpi.ne', if_pos hpi]
    have h1 : RoseCurve.jsMul (.num ((0 : ℕ) : ℝ)) RoseCurve.JSNum.posInf
        = RoseCurve.JSNum.nan := by
      simp only [RoseCurve.jsMul]
      rw [if_pos (by norm_num)]
    have h2 : RoseCurve.jsMul (.num (3 : ℝ)) RoseCurve.JSNum.nan
        = RoseCurve.JSNum.nan := rfl
    have h3 : RoseCurve.jsCos RoseCurve.JSNum.nan = RoseCurve.JSNum.nan := rfl
    have h4 : RoseCurve.jsMul (.num (1 : ℝ)) RoseCurve.JSNum.nan
        = RoseCurve.JSNum.nan := rfl
    have h5 : ¬ RoseCurve.jsLt RoseCurve.JSNum.nan (.num 0) := fun h => h
    have h6 : RoseCurve.jsAbs RoseCurve.JSNum.nan = RoseCurve.JSNum.nan := rfl
    simp only [RoseCurve.calculateCurve, List.range_succ, List.range_zero,
      List.nil_append, List.map_cons, List.map_nil]
    rw [hmax, hdiv, h1, h2, h3, h4, if_neg h5, h6]
  · exact fun h => h

/-- C9 amended: for at least one segment the JavaScript arithmetic
stays finite, and calculateCurve returns segments + 1 points, every
point has finite nonnegative r and theta, every sampled angle lies
between 0 and getMaxTheta k, and getMaxTheta k is 2 pi when k is
within 0.01 of an integer and 4 pi otherwise; at segments = 0 the
single point is NaN. -/
theorem c9_calculateCurve_spec (a k : ℝ) (segments : ℕ) (hseg : 1 ≤ segments) :
    (RoseCurve.calculateCurve a k segments).length = segments + 1
    ∧ (∀ pt ∈ RoseCurve.calculateCurve a k segments,
        RoseCurve.jsLe (RoseCurve.JSNum.num 0) pt.r
        ∧ RoseCurve.jsLe (RoseCurve.JSNum.num 0) pt.theta)
    ∧ (∀ i : ℕ, i ≤ segments →
        0 ≤ (i : ℝ) * (RoseCurve.getMaxTheta k / (segments : ℝ))
        ∧ (i : ℝ) * (RoseCurve.getMaxTheta k / (segments : ℝ)) ≤ RoseCurve.getMaxTheta k)
    ∧ (|k - (round k : ℝ)| < 1 / 100 → RoseCurve.getMaxTheta k = 2 * Real.pi)
    ∧ (¬ |k - (round k : ℝ)| < 1 / 100 → RoseCurve.getMaxTheta k = 4 * Real.pi) := by
  have hsegR : (0 : ℝ) < (segments : ℝ) := by exact_mod_cast hseg
  have hstep : 0 ≤ RoseCurve.getMaxTheta k / (segments : ℝ) :=
    div_nonneg (getMaxTheta_nonneg k) (le_of_lt hsegR)
  have hdiv : RoseCurve.jsDiv (RoseCurve.getMaxTheta k) (segments : ℝ)
      = RoseCurve.JSNum.num (RoseCurve.getMaxTheta k / (segments : ℝ)) := by
    unfold RoseCurve.jsDiv
    rw [if_neg hsegR.ne']
  refine ⟨?_, ?_, ?_, ?_, ?_⟩
  · simp only [RoseCurve.calculateCurve, List.length_map, List.length_range]
  · intro pt hpt
    simp only [RoseCurve.calculateCurve, hdiv, List.mem_map, List.mem_range] at hpt
    obtain ⟨i, _hi, hpt⟩ := hpt
    have hth : 0 ≤ (i : ℝ) * (RoseCurve.getMaxTheta k / (segments : ℝ)) :=
      mul_nonneg (Nat.cast_nonneg i) hstep
    have hpi := Real.pi_pos
    subst hpt
    simp only [RoseCurve.jsMul, RoseCurve.jsCos, RoseCurve.jsAbs, RoseCurve.jsAdd,
      RoseCurve.jsLt]
    split_ifs <;>
      exact ⟨by simp only [RoseCurve.jsLe]; exact abs_nonneg _,
        by simp only [RoseCurve.jsLe]; linarith⟩
  · intro i hi
    refine ⟨mul_nonneg (Nat.cast_nonneg i) hstep, ?_⟩
    have hiR : (i : ℝ) ≤ (segments : ℝ) := by exact_mod_cast hi
    calc (i : ℝ) * (RoseCurve.getMaxTheta k / (segments : ℝ))
        ≤ (segments : ℝ) * (RoseCurve.getMaxTheta k / (segments : ℝ)) :=
          mul_le_mul_of_nonneg_right hiR hstep
      _ = RoseCurve.getMaxTheta k := by field_simp
  · intro h
    unfold RoseCurve.getMaxTheta
    rw [if_pos h]
  · intro h
    unfold RoseCurve.getMaxTheta
    rw [if_neg h]

/-- C9 witness: the amended theorem applied at a = 1, k = 3 and 4
segments. -/
theorem c9_calculateCurve_spec_witness :
    1 ≤ 4
    ∧ ((RoseCurve.calculateCurve 1 3 4).length = 4 + 1
      ∧ (∀ pt ∈ RoseCurve.calculateCurve 1 3 4,
          RoseCurve.jsLe (RoseCurve.JSNum.num 0) pt.r
          ∧ RoseCurve.jsLe (RoseCurve.JSNum.num 0) pt.theta)
      ∧ (∀ i : ℕ, i ≤ 4 →
          0 ≤ (i : ℝ) * (RoseCurve.getMaxTheta 3 / ((4 : ℕ) : ℝ))
          ∧ (i : ℝ) * (RoseCurve.getMaxTheta 3 / ((4 : ℕ) : ℝ)) ≤ RoseCurve.getMaxTheta 3)
      ∧ (|(3 : ℝ) - (round (3 : ℝ) : ℝ)| < 1 / 100 → RoseCurve.getMaxTheta 3 = 2 * Real.pi)
      ∧ (¬ |(3 : ℝ) - (round (3 : ℝ) : ℝ)| < 1 / 100 → RoseCurve.getMaxTheta 3 = 4 * Real.pi)) :=
  ⟨by norm_num, c9_calculateCurve_spec 1 3 4 (by norm_num)⟩

/-- The loop of allParticlesArrived succeeds exactly when every particle
is within the arrival threshold of its target. -/
theorem allParticlesArrivedLoop_iff (l : List ParticleSystem.Particle) :
    ParticleSystem.allParticlesArrivedLoop l
      ↔ ∀ p ∈ l, ParticleSystem.distToTarget p ≤ 5 := by
  induction l with
  | nil => simp [ParticleSystem.allParticlesArrivedLoop]
  | cons p rest ih =>
    unfold ParticleSystem.allParticlesArrivedLoop
    split_ifs with hd
    · simp only [ParticleSystem.arrivalThreshold] at hd
      simp only [false_iff, not_forall]
      exact ⟨p, List.mem_cons_self p rest, by push_neg; linarith⟩
    · simp only [ParticleSystem.arrivalThreshold, not_lt] at hd
      rw [ih]
      constructor
      · intro h q hq
        rcases List.mem_cons.1 hq with h1 | h2
        · exact h1 ▸ hd
        · exact h q h2
      · intro h q hq
        exact h q (List.mem_cons_of_mem p hq)

/-- C8: allParticlesArrived holds exactly when the phase is converge and
every particle is within the arrival threshold of 5 pixels of its
target; in particular it never holds in the scatter phase. -/
theorem c8_allParticlesArrived_iff (s : ParticleSystem.PSystem) :
    ParticleSystem.allParticlesArrived s
      ↔ s.phase = ParticleSystem.Phase.converge
        ∧ ∀ p ∈ s.particles, ParticleSystem.distToTarget p ≤ 5 := by
  unfold ParticleSystem.allParticlesArrived
  split_ifs with hph
  · simp [hph]
  · push_neg at hph
    simp only [hph, true_and]
    exact allParticlesArrivedLoop_iff s.particles

/-- C10: while the particle list is empty and the phase is scatter (the
state after construction and after reset), update leaves the phase at
scatter and the list empty, and allParticlesArrived is false before and
after the call; the mean-alpha flip cannot fire on an empty list since
the JavaScript mean is NaN there. -/
theorem c10_empty_update (s : ParticleSystem.PSystem) (deltaTime currentTime : ℝ)
    (h1 : s.particles = []) (h2 : s.phase = ParticleSystem.Phase.scatter) :
    (ParticleSystem.update deltaTime currentTime s).phase = ParticleSystem.Phase.scatter
    ∧ (ParticleSystem.update deltaTime currentTime s).particles = []
    ∧ ¬ ParticleSystem.allParticlesArrived s
    ∧ ¬ ParticleSystem.allParticlesArrived (ParticleSystem.update deltaTime currentTime s) := by
  have hupd : ParticleSystem.update deltaTime currentTime s
      = ParticleSystem.updateScatterPhase deltaTime s := by
    simp [ParticleSystem.update, h2]
  have hcond : ¬ ParticleSystem.avgAlphaBelow
      (s.particles.map (ParticleSystem.updateScatterParticle deltaTime)) := by
    simp [ParticleSystem.avgAlphaBelow, h1]
  have hph : (ParticleSystem.updateScatterPhase deltaTime s).phase
      = ParticleSystem.Phase.scatter := by
    simp only [ParticleSystem.updateScatterPhase]
    rw [if_neg hcond]
    exact h2
  have hps : (ParticleSystem.updateScatterPhase deltaTime s).particles = [] := by
    simp [ParticleSystem.updateScatterPhase, h1]
  refine ⟨hupd ▸ hph, hupd ▸ hps, ?_, ?_⟩
  · simp [ParticleSystem.allParticlesArrived, h2]
  · rw [hupd]
    simp [ParticleSystem.allParticlesArrived, hph]

/-- C10 witness: the theorem applied to the state produced by reset. -/
theorem c10_empty_update_witness :
    (ParticleSystem.reset (ParticleSystem.init ⟨0, 0⟩)).particles = []
    ∧ (ParticleSystem.reset (ParticleSystem.init ⟨0, 0⟩)).phase
        = ParticleSystem.Phase.scatter
    ∧ ((ParticleSystem.update 1 0 (ParticleSystem.reset (ParticleSystem.init ⟨0, 0⟩))).phase
          = ParticleSystem.Phase.scatter
      ∧ (ParticleSystem.update 1 0 (ParticleSystem.reset (ParticleSystem.init ⟨0, 0⟩))).particles = []
      ∧ ¬ ParticleSystem.allParticlesArrived (ParticleSystem.reset (ParticleSystem.init ⟨0, 0⟩))
      ∧ ¬ ParticleSystem.allParticlesArrived
          (ParticleSystem.update 1 0 (ParticleSystem.reset (ParticleSystem.init ⟨0, 0⟩)))) :=
  ⟨rfl, rfl, c10_empty_update (ParticleSystem.reset (ParticleSystem.init ⟨0, 0⟩)) 1 0 rfl rfl⟩

/-- Moving by m along the unit vector toward the target from distance d
leaves distance d - m: the displacement is collinear with the offset. -/
theorem moveToward_dist (tx ty x y d m : ℝ)
    (hd : d = Real.sqrt ((tx - x) * (tx - x) + (ty - y) * (ty - y)))
    (hdpos : 0 < d) (hmd : m ≤ d) :
    Real.sqrt ((tx - (x + (tx - x) / d * m)) * (tx - (x + (tx - x) / d * m))
        + (ty - (y + (ty - y) / d * m)) * (ty - (y + (ty - y) / d * m)))
      = d - m := by
  have hdne : d ≠ 0 := ne_of_gt hdpos
  have hsum : 0 ≤ (tx - x) * (tx - x) + (ty - y) * (ty - y) :=
    add_nonneg (mul_self_nonneg _) (mul_self_nonneg _)
  have hdd : (tx - x) * (tx - x) + (ty - y) * (ty - y) = d * d := by
    rw [hd]
    exact (Real.mul_self_sqrt hsum).symm
  have h1 : tx - (x + (tx - x) / d * m) = (tx - x) * (1 - m / d) := by
    field_simp
    ring
  have h2 : ty - (y + (ty - y) / d * m) = (ty - y) * (1 - m / d) := by
    field_simp
    ring
  have hfold : d * (1 - m / d) = d - m := by
    field_simp
  have hA : (tx - (x + (tx - x) / d * m)) * (tx - (x + (tx - x) / d * m))
      + (ty - (y + (ty - y) / d * m)) * (ty - (y + (ty - y) / d * m))
      = (d - m) * (d - m) := by
    rw [h1, h2]
    calc (tx - x) * (1 - m / d) * ((tx - x) * (1 - m / d))
          + (ty - y) * (1 - m / d) * ((ty - y) * (1 - m / d))
        = ((tx - x) * (tx - x) + (ty - y) * (ty - y)) * ((1 - m / d) * (1 - m / d)) := by
          ring
      _ = d * d * ((1 - m / d) * (1 - m / d)) := by rw [hdd]
      _ = (d * (1 - m / d)) * (d * (1 - m / d)) := by ring
      _ = (d - m) * (d - m) := by rw [hfold]
  rw [hA]
  exact Real.sqrt_mul_self (by linarith)

/-- C6: in the converge phase one step never increases the distance of a
particle to its stored target and never overshoots: the new distance is
old distance minus min (speed dt 60) distance, hence still nonnegative. -/
theorem c6_converge_no_overshoot (deltaTime : ℝ) (p : ParticleSystem.Particle)
    (hdt : 0 ≤ deltaTime) :
    ParticleSystem.distToTarget (ParticleSystem.updateConvergeParticle deltaTime p)
      ≤ ParticleSystem.distToTarget p
    ∧ 0 ≤ ParticleSystem.distToTarget (ParticleSystem.updateConvergeParticle deltaTime p) := by
  refine ⟨?_, Real.sqrt_nonneg _⟩
  by_cases h5 : ParticleSystem.arrivalThreshold < ParticleSystem.distToTarget p
  case neg =>
    simp only [ParticleSystem.distToTarget, ParticleSystem.updateConvergeParticle] at h5 ⊢
    rw [if_neg h5]
  case pos =>
    have hdpos : 0 < ParticleSystem.distToTarget p := by
      have : (0 : ℝ) < ParticleSystem.arrivalThreshold := by
        norm_num [ParticleSystem.arrivalThreshold]
      linarith
    simp only [ParticleSystem.distToTarget, ParticleSystem.updateConvergeParticle] at h5 hdpos ⊢
    rw [if_pos h5]
    set dx := p.targetX - p.x with hdxdef
    set dy := p.targetY - p.y with hdydef
    set d := Real.sqrt (dx * dx + dy * dy) with hddef
    set m := min
      (ParticleSystem.convergenceSpeed
        * (1 + (1 - (1 - min (d / 300) 1) ^ 3) * 3) * deltaTime * 60) d with hmdef
    have hmd : m ≤ d := min_le_right _ _
    have hm0 : 0 ≤ m := by
      have hr0 : 0 ≤ min (d / 300) 1 := le_min (by positivity) zero_le_one
      have hr1 : min (d / 300) 1 ≤ 1 := min_le_right _ _
      have hcube : (1 - min (d / 300) 1) ^ 3 ≤ 1 :=
        pow_le_one₀ (by linarith) (by linarith)
      have hsp : 0 ≤ ParticleSystem.convergenceSpeed
          * (1 + (1 - (1 - min (d / 300) 1) ^ 3) * 3) := by
        have h1 : 0 ≤ 1 - (1 - min (d / 300) 1) ^ 3 := by linarith
        have h2 : (0 : ℝ) ≤ ParticleSystem.convergenceSpeed := by
          norm_num [ParticleSystem.convergenceSpeed]
        nlinarith
      exact le_min (by positivity) (le_of_lt hdpos)
    rw [moveToward_dist p.targetX p.targetY p.x p.y d m hddef hdpos hmd]
    linarith

/-- C6 witness: the theorem applied with deltaTime 0 to a particle at
distance 50 from its target. -/
theorem c6_converge_no_overshoot_witness :
    (0 : ℝ) ≤ 0
    ∧ (ParticleSystem.distToTarget (ParticleSystem.updateConvergeParticle 0
          { x := 0, y := 0, vx := 0, vy := 0, color := "f", alpha := 1, size := 2,
            targetX := 30, targetY := 40, life := 1, maxLife := 3, birthTime := 0,
            partType := "flower", partIndex := none })
        ≤ ParticleSystem.distToTarget
          { x := 0, y := 0, vx := 0, vy := 0, color := "f", alpha := 1, size := 2,
            targetX := 30, targetY := 40, life := 1, maxLife := 3, birthTime := 0,
            partType := "flower", partIndex := none }
      ∧ 0 ≤ ParticleSystem.distToTarget (ParticleSystem.updateConvergeParticle 0
          { x := 0, y := 0, vx := 0, vy := 0, color := "f", alpha := 1, size := 2,
            targetX := 30, targetY := 40, life := 1, maxLife := 3, birthTime := 0,
            partType := "flower", partIndex := none })) :=
  ⟨le_refl 0, c6_converge_no_overshoot 0
    { x := 0, y := 0, vx := 0, vy := 0, color := "f", alpha := 1, size := 2,
      targetX := 30, targetY := 40, life := 1, maxLife := 3, birthTime := 0,
      partType := "flower", partIndex := none } (le_refl 0)⟩

/-- C7 counterexample: the claim says every alpha strictly decreases on a
scatter update with positive dt, but a particle whose alpha already hit
the floor 0 keeps alpha 0, which is not a strict decrease. -/
theorem c7_alpha_floor_counterexample :
    ((ParticleSystem.update 1 0
        { particles :=
            [{ x := 0, y := 0, vx := 0, vy := 0, color := "f", alpha := 0,
               size := 2, targetX := 0, targetY := 0, life := 0, maxLife := 3,
               birthTime := 0, partType := "flower", partIndex := none }]
          phase := ParticleSystem.Phase.scatter
          seedPosition := { x := 0, y := 0 } }).particles.map
        ParticleSystem.Particle.alpha) = [0]
    ∧ ¬ ((0 : ℝ) < 0) := by
  constructor
  · norm_num [ParticleSystem.update, ParticleSystem.updateScatterPhase,
      ParticleSystem.updateScatterParticle, ParticleSystem.alphaDecayRate,
      ParticleSystem.gravity, max_eq_left]
  · norm_num

/-- C7 amended: a scatter update with dt above 0 adds 0.5 dt 60 to the
vy of every particle, so every vy strictly increases; every alpha and
life stays at least 0; and alpha strictly decreases whenever it is
still positive (a particle whose alpha already hit the floor keeps 0). -/
theorem c7_scatter_step (s : ParticleSystem.PSystem) (deltaTime currentTime : ℝ) (i : ℕ)
    (hphase : s.phase = ParticleSystem.Phase.scatter)
    (hdt : 0 < deltaTime)
    (hi : i < s.particles.length) :
    (ParticleSystem.update deltaTime currentTime s).particles.get? i
      = some (ParticleSystem.updateScatterParticle deltaTime (s.particles.get ⟨i, hi⟩))
    ∧ (ParticleSystem.updateScatterParticle deltaTime (s.particles.get ⟨i, hi⟩)).vy
      = (s.particles.get ⟨i, hi⟩).vy + 0.5 * deltaTime * 60
    ∧ (s.particles.get ⟨i, hi⟩).vy
      < (ParticleSystem.updateScatterParticle deltaTime (s.particles.get ⟨i, hi⟩)).vy
    ∧ (0 < (s.particles.get ⟨i, hi⟩).alpha →
        (ParticleSystem.updateScatterParticle deltaTime (s.particles.get ⟨i, hi⟩)).alpha
          < (s.particles.get ⟨i, hi⟩).alpha)
    ∧ 0 ≤ (ParticleSystem.updateScatterParticle deltaTime (s.particles.get ⟨i, hi⟩)).alpha
    ∧ 0 ≤ (ParticleSystem.updateScatterParticle deltaTime (s.particles.get ⟨i, hi⟩)).life := by
  refine ⟨?_, ?_, ?_, ?_, ?_, ?_⟩
  · simp [ParticleSystem.update, hphase, ParticleSystem.updateScatterPhase,
      List.getElem?_map, List.getElem?_eq_getElem hi, List.get_eq_getElem]
  · norm_num [ParticleSystem.updateScatterParticle, ParticleSystem.gravity]
  · simp only [ParticleSystem.updateScatterParticle, ParticleSystem.gravity]
    nlinarith
  · intro halpha
    simp only [ParticleSystem.updateScatterParticle, ParticleSystem.alphaDecayRate]
    have h1 : (s.particles.get ⟨i, hi⟩).alpha - 0.3 * deltaTime
        < (s.particles.get ⟨i, hi⟩).alpha := by nlinarith
    exact max_lt halpha h1
  · exact le_max_left 0 _
  · exact le_max_left 0 _

/-- C7 witness: the amended theorem applied to a one-particle system
with alpha 1 and dt 1. -/
theorem c7_scatter_step_witness :
    ({ particles :=
         [{ x := 0, y := 0, vx := 0, vy := 0, color := "f", alpha := 1,
            size := 2, targetX := 0, targetY := 0, life := 1, maxLife := 3,
            birthTime := 0, partType := "flower", partIndex := none }]
       phase := ParticleSystem.Phase.scatter
       seedPosition := { x := 0, y := 0 } } : ParticleSystem.PSystem).phase
        = ParticleSystem.Phase.scatter
    ∧ (0 : ℝ) < 1
    ∧ ((ParticleSystem.update 1 0
          { particles :=
              [{ x := 0, y := 0, vx := 0, vy := 0, color := "f", alpha := 1,
                 size := 2, targetX := 0, targetY := 0, life := 1, maxLife := 3,
                 birthTime := 0, partType := "flower", partIndex := none }]
            phase := ParticleSystem.Phase.scatter
            seedPosition := { x := 0, y := 0 } }).particles.get? 0
        = some (ParticleSystem.updateScatterParticle 1
            { x := 0, y := 0, vx := 0, vy := 0, color := "f", alpha := 1,
              size := 2, targetX := 0, targetY := 0, life := 1, maxLife := 3,
              birthTime := 0, partType := "flower", partIndex := none })
      ∧ (ParticleSystem.updateScatterParticle 1
            { x := 0, y := 0, vx := 0, vy := 0, color := "f", alpha := 1,
              size := 2, targetX := 0, targetY := 0, life := 1, maxLife := 3,
              birthTime := 0, partType := "flower", partIndex := none }).vy
          = (0 : ℝ) + 0.5 * 1 * 60
      ∧ (0 : ℝ) < (ParticleSystem.updateScatterParticle 1
            { x := 0, y := 0, vx := 0, vy := 0, color := "f", alpha := 1,
              size := 2, targetX := 0, targetY := 0, life := 1, maxLife := 3,
              birthTime := 0, partType := "flower", partIndex := none }).vy
      ∧ ((0 : ℝ) < 1 →
          (ParticleSystem.updateScatterParticle 1
            { x := 0, y := 0, vx := 0, vy := 0, color := "f", alpha := 1,
              size := 2, targetX := 0, targetY := 0, life := 1, maxLife := 3,
              birthTime := 0, partType := "flower", partIndex := none }).alpha < 1)
      ∧ 0 ≤ (ParticleSystem.updateScatterParticle 1
            { x := 0, y := 0, vx := 0, vy := 0, color := "f", alpha := 1,
              size := 2, targetX := 0, targetY := 0, life := 1, maxLife := 3,
              birthTime := 0, partType := "flower", partIndex := none }).alpha
      ∧ 0 ≤ (ParticleSystem.updateScatterParticle 1
            { x := 0, y := 0, vx := 0, vy := 0, color := "f", alpha := 1,
              size := 2, targetX := 0, targetY := 0, life := 1, maxLife := 3,
              birthTime := 0, partType := "flower", partIndex := none }).life) :=
  ⟨rfl, by norm_num,
    c7_scatter_step
      { particles :=
          [{ x := 0, y := 0, vx := 0, vy := 0, color := "f", alpha := 1,
             size := 2, targetX := 0, targetY := 0, life := 1, maxLife := 3,
             birthTime := 0, partType := "flower", partIndex := none }]
        phase := ParticleSystem.Phase.scatter
        seedPosition := { x := 0, y := 0 } } 1 0 0 rfl (by norm_num)
      (by norm_num)⟩

end SingingFlower
